import Mathlib

/-!
Shallow embedding of the DFPlayer serial driver (`src/lib.rs`): the
command/query model, the 10-byte message codec with checksum, the
byte-at-a-time frame reassembler, and the per-byte transmit loop.
Bytes are modelled as `Nat`; Rust `u8`/`u16` bounds appear as explicit
hypotheses or `% 2^w` reductions where the source relies on them.
-/

namespace DFPlayer

/-- `MSG_START`: the frame start marker byte `0x7e`. -/
def MSG_START : Nat := 0x7e

/-- `MSG_END`: the frame end marker byte `0xef`. -/
def MSG_END : Nat := 0xef

/-- The `Equalizer` enum (`#[repr(u8)]`). -/
inductive Equalizer where
  | Normal | Pop | Rock | Jazz | Classic | Bass
  deriving DecidableEq, Repr

/-- `IntoPrimitive` for `Equalizer`: the `u8` discriminant. -/
def Equalizer.toByte : Equalizer → Nat
  | .Normal => 0x00
  | .Pop => 0x01
  | .Rock => 0x02
  | .Jazz => 0x03
  | .Classic => 0x04
  | .Bass => 0x05

/-- The `PlaybackMode` enum (`#[repr(u8)]`). -/
inductive PlaybackMode where
  | Repeat | FolderRepeat | SingleRepeat | Random
  deriving DecidableEq, Repr

/-- `IntoPrimitive` for `PlaybackMode`: the `u8` discriminant. -/
def PlaybackMode.toByte : PlaybackMode → Nat
  | .Repeat => 0x00
  | .FolderRepeat => 0x01
  | .SingleRepeat => 0x02
  | .Random => 0x03

/-- The `Command` enum. Rust `u8`/`u16` parameters are carried as `Nat`;
where a bound matters a theorem assumes it explicitly. -/
inductive Command where
  | Next
  | Previous
  | SpecifyTrack (track : Nat)
  | IncreseVolume
  | DecreseVolume
  | SpecifyVolume (vol : Nat)
  | SpecifyEqualizer (eq : Equalizer)
  | SpecifyPlaybackMode (mode : PlaybackMode)
  | Standby
  | NormalWorking
  | ResetModule
  | Playback
  | Pause
  | SpecifyFolder (folder track : Nat)
  | SpecifyMp3Track (track : Nat)
  | SpecifyAdvertisement (track : Nat)
  | StopAdvertisement
  | Stop
  deriving DecidableEq, Repr

/-- The `Querry` enum. -/
inductive Querry where
  | Status | Volume | Equalizer | PlaybackMode
  | SoftwareVersion | FileCountInFolder | FolderCount
  deriving DecidableEq, Repr

/-- The crate's `Error` enum. The transport error payloads (`TXE`, `RXE`,
`nb::Error`) carry no information the driver inspects, so they are dropped. -/
inductive DfError where
  | WriteError
  | ReadError
  | MessageNotComplete
  | MessageOverrun
  deriving DecidableEq, Repr

/-- A `Message` (`[u8; 10]`) as a list of byte values. -/
abbrev Msg := List Nat

instance {e a : Type} [DecidableEq e] [DecidableEq a] : DecidableEq (Except e a) := fun x y =>
  match x, y with
  | .ok u, .ok v => decidable_of_iff (u = v) (by simp)
  | .error u, .error v => decidable_of_iff (u = v) (by simp)
  | .ok _, .error _ => .isFalse (by simp)
  | .error _, .ok _ => .isFalse (by simp)

/-- `u16::to_be_bytes`, totalised over `Nat` by reducing mod `2^16`
(the Rust argument is a `u16`, so `< 2^16` always holds at call sites). -/
def u16_to_be_bytes (t : Nat) : Nat × Nat := (t / 256 % 256, t % 256)

/-- `add_static_bytes`: writes start byte, version, length and end byte. -/
def add_static_bytes (msg : Msg) : Msg :=
  ((((msg.set 0 0x7e).set 1 0xff).set 2 0x06).set 9 0xEF)

/-- `add_checksum`: sums bytes `msg[1..7]` into a `u16` (the six-byte sum
never exceeds `6 * 255 < 2^16`, so the accumulation cannot wrap), negates it
with `0u16.wrapping_sub` and stores the result big-endian at `msg[7..9]`. -/
def add_checksum (msg : Msg) : Msg :=
  let sum := ((msg.drop 1).take 6).sum
  let checksum := (65536 - sum % 65536) % 65536
  (msg.set 7 (checksum / 256)).set 8 (checksum % 256)

/-- The command-identifier byte written at `msg[3]` by
`impl From<Command> for Message` (the first `match` in `from`). -/
def commandId : Command → Nat
  | .Next => 0x01
  | .Previous => 0x02
  | .SpecifyTrack _ => 0x03
  | .IncreseVolume => 0x04
  | .DecreseVolume => 0x05
  | .SpecifyVolume _ => 0x06
  | .SpecifyEqualizer _ => 0x07
  | .SpecifyPlaybackMode _ => 0x08
  | .Standby => 0x0A
  | .NormalWorking => 0x0B
  | .ResetModule => 0x0C
  | .Playback => 0x0D
  | .Pause => 0x0E
  | .SpecifyFolder _ _ => 0x0F
  | .SpecifyMp3Track _ => 0x12
  | .SpecifyAdvertisement _ => 0x13
  | .StopAdvertisement => 0x15
  | .Stop => 0x16

/-- The two parameter bytes `data` computed by the second `match` in
`impl From<Command> for Message`. -/
def commandData : Command → Nat × Nat
  | .SpecifyTrack track => u16_to_be_bytes track
  | .SpecifyVolume vol => (0x00, vol)
  | .SpecifyEqualizer equ => (0x00, equ.toByte)
  | .SpecifyPlaybackMode mode => (0x00, mode.toByte)
  | .SpecifyFolder folder track => (folder, track)
  | .SpecifyMp3Track track => u16_to_be_bytes track
  | .SpecifyAdvertisement track => u16_to_be_bytes track
  | _ => (0x00, 0x00)

/-- `impl From<Command> for Message`: build the 10-byte frame. -/
def msgOfCommand (command : Command) : Msg :=
  let msg : Msg := List.replicate 10 0
  let msg := add_static_bytes msg
  let msg := msg.set 3 (commandId command)
  let msg := msg.set 4 0x00
  let data := commandData command
  let msg := msg.set 5 data.1
  let msg := msg.set 6 data.2
  add_checksum msg

/-- `impl From<Querry> for Message`. The `unimplemented!()` panic on every
variant other than `Volume` is modelled as `none`. -/
def msgOfQuerry (querry : Querry) : Option Msg :=
  let msg : Msg := List.replicate 10 0
  let msg := add_static_bytes msg
  match querry with
  | .Volume =>
      let msg := msg.set 3 0x01
      let msg := msg.set 4 0x00
      let msg := (msg.set 5 0x00).set 6 0x00
      some (add_checksum msg)
  | _ => none

/-- The receive-side fields of the `DFPlayer` struct: `rx_message` and
`rx_counter`. -/
structure RxState where
  rx_message : Msg
  rx_counter : Nat
  deriving DecidableEq, Repr

/-- `DFPlayer::new`: zeroed buffer, cursor 0. -/
def initState : RxState := ⟨List.replicate 10 0, 0⟩

/-- Outcome of one `self.rx.read()` call on the transport: a byte, or an
`nb::Error` (would-block or hardware failure — the driver treats both the
same way, returning `Error::ReadError`). -/
inductive ReadOutcome where
  | ok (b : Nat)
  | err
  deriving DecidableEq, Repr

/-- `read_message`: consume one transport read outcome, returning the new
receive state together with the Rust `Result<Message, Error>`. -/
def read_message (s : RxState) (r : ReadOutcome) :
    RxState × Except DfError Msg :=
  match r with
  | .err => (s, .error .ReadError)
  | .ok b =>
    if b = MSG_START then
      (⟨(List.replicate 10 0).set 0 MSG_START, 1⟩, .error .MessageNotComplete)
    else if b = MSG_END then
      if s.rx_counter < 10 then
        let m := s.rx_message.set s.rx_counter MSG_END
        (⟨m, s.rx_counter + 1⟩, .ok m)
      else
        (s, .error .MessageOverrun)
    else
      if s.rx_counter < 10 then
        (⟨s.rx_message.set s.rx_counter b, s.rx_counter + 1⟩,
          .error .MessageNotComplete)
      else
        (s, .error .MessageNotComplete)

/-- Feed a list of successfully read bytes through `read_message`,
keeping only the final state. -/
def feedBytes (s : RxState) (bs : List Nat) : RxState :=
  bs.foldl (fun s b => (read_message s (.ok b)).1) s

/-- Feed a list of successfully read bytes through `read_message`,
recording each call's `Result`. -/
def feedTrace (s : RxState) : List Nat → List (Except DfError Msg)
  | [] => []
  | b :: bs =>
      (read_message s (.ok b)).2 :: feedTrace (read_message s (.ok b)).1 bs

/-- `send_message`: write the bytes in order; `accepts k` tells whether the
`k`-th blocking write succeeds (`block!` folds `nb` retries into one
outcome). Returns the bytes actually written and the Rust `Result`. -/
def send_message (accepts : Nat → Bool) : Nat → List Nat → List Nat × Except DfError Unit
  | _, [] => ([], .ok ())
  | i, b :: rest =>
      if accepts i then
        let r := send_message accepts (i + 1) rest
        (b :: r.1, r.2)
      else
        ([], .error .WriteError)

/-- The wrapper `set_volume`: clamps with `vol.max(0).min(30)`. -/
def set_volume_cmd (vol : Nat) : Command :=
  .SpecifyVolume ((vol.max 0).min 30)

/-- The wrapper `play_mp3`: clamps with `track.min(9999).max(0)`. -/
def play_mp3_cmd (track : Nat) : Command :=
  .SpecifyMp3Track ((track.min 9999).max 0)

/-- The wrapper `play_folder_track`: clamps the folder with
`folder.min(99).max(0)`; the track byte is passed through. -/
def play_folder_track_cmd (folder track : Nat) : Command :=
  .SpecifyFolder ((folder.min 99).max 0) track

/-- The wrapper `advertise`: clamps with `ad.min(9999).max(0)`. -/
def advertise_cmd (ad : Nat) : Command :=
  .SpecifyAdvertisement ((ad.min 9999).max 0)

/-- Constructor index of a `Command`, used to state that no two distinct
variants share an identifier byte. -/
def ctorIdx : Command → Nat
  | .Next => 0
  | .Previous => 1
  | .SpecifyTrack _ => 2
  | .IncreseVolume => 3
  | .DecreseVolume => 4
  | .SpecifyVolume _ => 5
  | .SpecifyEqualizer _ => 6
  | .SpecifyPlaybackMode _ => 7
  | .Standby => 8
  | .NormalWorking => 9
  | .ResetModule => 10
  | .Playback => 11
  | .Pause => 12
  | .SpecifyFolder _ _ => 13
  | .SpecifyMp3Track _ => 14
  | .SpecifyAdvertisement _ => 15
  | .StopAdvertisement => 16
  | .Stop => 17

/-- Left inverse of the identifier table on its range. -/
def tagOfId : Nat → Nat
  | 0x01 => 0
  | 0x02 => 1
  | 0x03 => 2
  | 0x04 => 3
  | 0x05 => 4
  | 0x06 => 5
  | 0x07 => 6
  | 0x08 => 7
  | 0x0A => 8
  | 0x0B => 9
  | 0x0C => 10
  | 0x0D => 11
  | 0x0E => 12
  | 0x0F => 13
  | 0x12 => 14
  | 0x13 => 15
  | 0x15 => 16
  | 0x16 => 17
  | _ => 18

/-! ### Helper lemmas -/

/-- The common frame-building skeleton of both `From` impls: static bytes,
identifier `i`, feedback flag `0`, data bytes `d0 d1`, then the checksum. -/
def mkFrame (i d0 d1 : Nat) : Msg :=
  add_checksum (((((add_static_bytes (List.replicate 10 0)).set 3 i).set 4 0).set 5 d0).set 6 d1)

lemma msgOfCommand_eq_mkFrame (c : Command) :
    msgOfCommand c = mkFrame (commandId c) (commandData c).1 (commandData c).2 := rfl

lemma mkFrame_eq (i d0 d1 : Nat) : mkFrame i d0 d1 =
    [126, 255, 6, i, 0, d0, d1,
      (65536 - (255 + (6 + (i + (0 + (d0 + (d1 + 0)))))) % 65536) % 65536 / 256,
      (65536 - (255 + (6 + (i + (0 + (d0 + (d1 + 0)))))) % 65536) % 65536 % 256, 239] := rfl

lemma frame_layout_mkFrame (i d0 d1 : Nat) :
    (mkFrame i d0 d1).length = 10 ∧
    (mkFrame i d0 d1).getD 0 0 = 0x7E ∧
    (mkFrame i d0 d1).getD 1 0 = 0xFF ∧
    (mkFrame i d0 d1).getD 2 0 = 0x06 ∧
    (mkFrame i d0 d1).getD 4 0 = 0x00 ∧
    (mkFrame i d0 d1).getD 9 0 = 0xEF ∧
    (mkFrame i d0 d1).getD 7 0 * 256 + (mkFrame i d0 d1).getD 8 0 =
      (65536 - ((mkFrame i d0 d1).getD 1 0 + (mkFrame i d0 d1).getD 2 0 +
        (mkFrame i d0 d1).getD 3 0 + (mkFrame i d0 d1).getD 4 0 +
        (mkFrame i d0 d1).getD 5 0 + (mkFrame i d0 d1).getD 6 0) % 65536) % 65536 := by
  refine ⟨rfl, rfl, rfl, rfl, rfl, rfl, ?_⟩
  show (65536 - (255 + (6 + (i + (0 + (d0 + (d1 + 0)))))) % 65536) % 65536 / 256 * 256 +
      (65536 - (255 + (6 + (i + (0 + (d0 + (d1 + 0)))))) % 65536) % 65536 % 256 =
      (65536 - (255 + 6 + i + 0 + d0 + d1) % 65536) % 65536
  omega

/-- Feeding a frame whose interior bytes avoid both markers reassembles it:
nine `MessageNotComplete` results, then the full frame. -/
lemma feedTrace_frame (b1 b2 b3 b4 b5 b6 b7 b8 : Nat)
    (h1 : b1 ≠ 126 ∧ b1 ≠ 239) (h2 : b2 ≠ 126 ∧ b2 ≠ 239)
    (h3 : b3 ≠ 126 ∧ b3 ≠ 239) (h4 : b4 ≠ 126 ∧ b4 ≠ 239)
    (h5 : b5 ≠ 126 ∧ b5 ≠ 239) (h6 : b6 ≠ 126 ∧ b6 ≠ 239)
    (h7 : b7 ≠ 126 ∧ b7 ≠ 239) (h8 : b8 ≠ 126 ∧ b8 ≠ 239) :
    feedTrace initState [126, b1, b2, b3, b4, b5, b6, b7, b8, 239] =
      List.replicate 9 (Except.error DfError.MessageNotComplete) ++
        [Except.ok [126, b1, b2, b3, b4, b5, b6, b7, b8, 239]] := by
  obtain ⟨h1a, h1b⟩ := h1; obtain ⟨h2a, h2b⟩ := h2
  obtain ⟨h3a, h3b⟩ := h3; obtain ⟨h4a, h4b⟩ := h4
  obtain ⟨h5a, h5b⟩ := h5; obtain ⟨h6a, h6b⟩ := h6
  obtain ⟨h7a, h7b⟩ := h7; obtain ⟨h8a, h8b⟩ := h8
  simp [feedTrace, read_message, MSG_START, MSG_END, initState,
    h1a, h1b, h2a, h2b, h3a, h3b, h4a, h4b, h5a, h5b, h6a, h6b, h7a, h7b, h8a, h8b,
    List.replicate, List.set]

/-! ### Claims -/

/-- Claim C1: every encoded command frame (and the encoded Volume query
frame) is 10 bytes long with start marker `0x7E`, version `0xFF`, length
`0x06`, feedback flag `0x00`, end marker `0xEF`, and its bytes 7..8 hold,
big-endian, the value `(0 - sum(bytes 1..6)) mod 2^16`. -/
theorem c1_frame_layout_checksum :
    (∀ c : Command,
      (msgOfCommand c).length = 10 ∧
      (msgOfCommand c).getD 0 0 = 0x7E ∧
      (msgOfCommand c).getD 1 0 = 0xFF ∧
      (msgOfCommand c).getD 2 0 = 0x06 ∧
      (msgOfCommand c).getD 4 0 = 0x00 ∧
      (msgOfCommand c).getD 9 0 = 0xEF ∧
      (msgOfCommand c).getD 7 0 * 256 + (msgOfCommand c).getD 8 0 =
        (65536 - ((msgOfCommand c).getD 1 0 + (msgOfCommand c).getD 2 0 +
          (msgOfCommand c).getD 3 0 + (msgOfCommand c).getD 4 0 +
          (msgOfCommand c).getD 5 0 + (msgOfCommand c).getD 6 0) % 65536) % 65536) ∧
    ((msgOfQuerry Querry.Volume).isSome ∧
      ((msgOfQuerry Querry.Volume).getD []).length = 10 ∧
      ((msgOfQuerry Querry.Volume).getD []).getD 0 0 = 0x7E ∧
      ((msgOfQuerry Querry.Volume).getD []).getD 1 0 = 0xFF ∧
      ((msgOfQuerry Querry.Volume).getD []).getD 2 0 = 0x06 ∧
      ((msgOfQuerry Querry.Volume).getD []).getD 4 0 = 0x00 ∧
      ((msgOfQuerry Querry.Volume).getD []).getD 9 0 = 0xEF ∧
      ((msgOfQuerry Querry.Volume).getD []).getD 7 0 * 256 +
          ((msgOfQuerry Querry.Volume).getD []).getD 8 0 =
        (65536 - (((msgOfQuerry Querry.Volume).getD []).getD 1 0 +
          ((msgOfQuerry Querry.Volume).getD []).getD 2 0 +
          ((msgOfQuerry Querry.Volume).getD []).getD 3 0 +
          ((msgOfQuerry Querry.Volume).getD []).getD 4 0 +
          ((msgOfQuerry Querry.Volume).getD []).getD 5 0 +
          ((msgOfQuerry Querry.Volume).getD []).getD 6 0) % 65536) % 65536) := by
  constructor
  · intro c
    rw [msgOfCommand_eq_mkFrame]
    exact frame_layout_mkFrame _ _ _
  · decide

/-- Claim C2 counterexample: for `Command::SpecifyVolume(6)` the low
checksum byte is `0xEF`, so the reassembler completes early: the trace of
the ten feed calls is not nine `MessageNotComplete` results followed by the
original frame — the ninth call already returns a (truncated) frame. -/
theorem c2_roundtrip_counterexample :
    ¬ (feedTrace initState (msgOfCommand (Command.SpecifyVolume 6)) =
        List.replicate 9 (Except.error DfError.MessageNotComplete) ++
          [Except.ok (msgOfCommand (Command.SpecifyVolume 6))]) := by
  decide

/-- Claim C2 (amended): for every command whose encoded frame contains no
marker byte (`0x7E` or `0xEF`) among bytes 1..8, feeding the ten frame
bytes one at a time from the fresh reassembler state yields
`MessageNotComplete` on each of the first nine calls and the original
frame on the tenth. -/
theorem c2_roundtrip_amended (c : Command)
    (h : ∀ i, i < 9 → 1 ≤ i →
      (msgOfCommand c).getD i 0 ≠ 0x7E ∧ (msgOfCommand c).getD i 0 ≠ 0xEF) :
    feedTrace initState (msgOfCommand c) =
      List.replicate 9 (Except.error DfError.MessageNotComplete) ++
        [Except.ok (msgOfCommand c)] := by
  rw [msgOfCommand_eq_mkFrame, mkFrame_eq] at h ⊢
  exact feedTrace_frame _ _ _ _ _ _ _ _
    (h 1 (by omega) (by omega)) (h 2 (by omega) (by omega))
    (h 3 (by omega) (by omega)) (h 4 (by omega) (by omega))
    (h 5 (by omega) (by omega)) (h 6 (by omega) (by omega))
    (h 7 (by omega) (by omega)) (h 8 (by omega) (by omega))

/-- Witness for C2 (amended) at `Command::Playback`. -/
theorem c2_roundtrip_amended_witness :
    feedTrace initState (msgOfCommand Command.Playback) =
      List.replicate 9 (Except.error DfError.MessageNotComplete) ++
        [Except.ok (msgOfCommand Command.Playback)] :=
  c2_roundtrip_amended Command.Playback (by decide)

lemma read_message_err (s : RxState) :
    read_message s .err = (s, .error .ReadError) := rfl

lemma read_message_start (s : RxState) :
    read_message s (.ok 126) =
      (⟨(List.replicate 10 0).set 0 126, 1⟩, .error .MessageNotComplete) := rfl

lemma read_message_end (s : RxState) :
    read_message s (.ok 239) =
      if s.rx_counter < 10 then
        (⟨s.rx_message.set s.rx_counter 239, s.rx_counter + 1⟩,
          .ok (s.rx_message.set s.rx_counter 239))
      else
        (s, .error .MessageOverrun) := by
  simp [read_message, MSG_START, MSG_END]

lemma read_message_nonmarker (s : RxState) (b : Nat)
    (hb1 : b ≠ 126) (hb2 : b ≠ 239) :
    read_message s (.ok b) =
      if s.rx_counter < 10 then
        (⟨s.rx_message.set s.rx_counter b, s.rx_counter + 1⟩,
          .error .MessageNotComplete)
      else
        (s, .error .MessageNotComplete) := by
  simp [read_message, MSG_START, MSG_END, hb1, hb2]

lemma feedBytes_cons (s : RxState) (b : Nat) (bs : List Nat) :
    feedBytes s (b :: bs) = feedBytes (read_message s (.ok b)).1 bs := rfl

lemma feedBytes_nonmarker_counter (bs : List Nat) :
    ∀ s : RxState, (∀ b ∈ bs, b ≠ 126 ∧ b ≠ 239) → s.rx_counter ≤ 10 →
      (feedBytes s bs).rx_counter = min (s.rx_counter + bs.length) 10 := by
  induction bs with
  | nil => intro s _ hc; simp [feedBytes]; omega
  | cons b bs ih =>
      intro s hb hc
      rw [feedBytes_cons,
        read_message_nonmarker s b (hb b (by simp)).1 (hb b (by simp)).2]
      by_cases hlt : s.rx_counter < 10
      · rw [if_pos hlt, ih _ (fun x hx => hb x (by simp [hx]))
          (by show s.rx_counter + 1 ≤ 10; omega)]
        show min (s.rx_counter + 1 + bs.length) 10 = min (s.rx_counter + (b :: bs).length) 10
        simp; omega
      · rw [if_neg hlt, ih _ (fun x hx => hb x (by simp [hx])) hc]
        show min (s.rx_counter + bs.length) 10 = min (s.rx_counter + (b :: bs).length) 10
        simp; omega

lemma feedBytes_nonmarker_length (bs : List Nat) :
    ∀ s : RxState, (∀ b ∈ bs, b ≠ 126 ∧ b ≠ 239) →
      (feedBytes s bs).rx_message.length = s.rx_message.length := by
  induction bs with
  | nil => intro s _; rfl
  | cons b bs ih =>
      intro s hb
      rw [feedBytes_cons,
        read_message_nonmarker s b (hb b (by simp)).1 (hb b (by simp)).2]
      by_cases hlt : s.rx_counter < 10
      · rw [if_pos hlt, ih _ (fun x hx => hb x (by simp [hx]))]
        show (s.rx_message.set s.rx_counter b).length = s.rx_message.length
        simp
      · rw [if_neg hlt, ih _ (fun x hx => hb x (by simp [hx]))]

/-- Claim C3: an end marker arriving with the cursor already at (or past)
10 yields `MessageOverrun` and leaves the state untouched; in particular,
after 10 non-marker bytes from the reset state, an end marker reports
`MessageOverrun` (with the state unchanged), not a completed frame. -/
theorem c3_end_marker_overrun :
    (∀ s : RxState, 10 ≤ s.rx_counter →
      read_message s (.ok MSG_END) = (s, .error .MessageOverrun)) ∧
    (∀ bs : List Nat, bs.length = 10 → (∀ b ∈ bs, b ≠ MSG_START ∧ b ≠ MSG_END) →
      read_message (feedBytes initState bs) (.ok MSG_END) =
        (feedBytes initState bs, .error .MessageOverrun)) := by
  have base : ∀ s : RxState, 10 ≤ s.rx_counter →
      read_message s (.ok MSG_END) = (s, .error .MessageOverrun) := by
    intro s hs
    show read_message s (.ok 239) = (s, .error .MessageOverrun)
    rw [read_message_end, if_neg (by omega)]
  refine ⟨base, fun bs hlen hb => base _ ?_⟩
  have hc := feedBytes_nonmarker_counter bs initState
    (by simpa [MSG_START, MSG_END] using hb) (by show (0 : Nat) ≤ 10; omega)
  rw [hlen] at hc
  have h0 : initState.rx_counter = 0 := rfl
  rw [h0] at hc
  omega

/-- Witness for C3: a full cursor rejects the end marker, both for an
explicit state with cursor 10 and after ten non-marker bytes. -/
theorem c3_end_marker_overrun_witness :
    read_message ⟨List.replicate 10 0, 10⟩ (.ok MSG_END) =
        (⟨List.replicate 10 0, 10⟩, .error .MessageOverrun) ∧
      read_message (feedBytes initState (List.replicate 10 1)) (.ok MSG_END) =
        (feedBytes initState (List.replicate 10 1), .error .MessageOverrun) :=
  ⟨c3_end_marker_overrun.1 ⟨List.replicate 10 0, 10⟩ (by decide),
    c3_end_marker_overrun.2 (List.replicate 10 1) (by decide) (by decide)⟩

/-- Claim C5: a start marker always resets the reassembler (zeroed buffer
with `0x7E` at index 0, cursor 1) whatever the current state is; feeding
the spec's spurious-start-marker stream reassembles the `Playback` frame
from the second `0x7E`. -/
theorem c5_start_marker_resets :
    (∀ s : RxState, read_message s (.ok MSG_START) =
      (⟨(List.replicate 10 0).set 0 MSG_START, 1⟩, .error .MessageNotComplete)) ∧
    feedTrace initState
        [0x7E, 0x01, 0x7E, 0xFF, 0x06, 0x0D, 0x00, 0x00, 0x00, 0xFE, 0xEE, 0xEF] =
      List.replicate 11 (Except.error DfError.MessageNotComplete) ++
        [Except.ok (msgOfCommand Command.Playback)] :=
  ⟨fun _ => rfl, by decide⟩

/-- Claim C6: a non-marker byte arriving with the cursor at (or past) 10
is silently dropped — state unchanged, result `MessageNotComplete` — and
11 non-marker bytes from the reset state leave the cursor at 10 with the
10-byte buffer intact. -/
theorem c6_passive_overflow :
    (∀ (s : RxState) (b : Nat), b ≠ MSG_START → b ≠ MSG_END →
      10 ≤ s.rx_counter →
      read_message s (.ok b) = (s, .error .MessageNotComplete)) ∧
    (∀ bs : List Nat, bs.length = 11 → (∀ b ∈ bs, b ≠ MSG_START ∧ b ≠ MSG_END) →
      (feedBytes initState bs).rx_counter = 10 ∧
        (feedBytes initState bs).rx_message.length = 10) := by
  constructor
  · intro s b hb1 hb2 hs
    rw [read_message_nonmarker s b (by simpa [MSG_START] using hb1)
      (by simpa [MSG_END] using hb2), if_neg (by omega)]
  · intro bs hlen hb
    have hb' : ∀ b ∈ bs, b ≠ 126 ∧ b ≠ 239 := by
      simpa [MSG_START, MSG_END] using hb
    have h0 : initState.rx_counter = 0 := rfl
    constructor
    · have hc := feedBytes_nonmarker_counter bs initState hb'
        (by show (0 : Nat) ≤ 10; omega)
      rw [hlen, h0] at hc
      omega
    · have hL := feedBytes_nonmarker_length bs initState hb'
      have h10 : initState.rx_message.length = 10 := rfl
      rw [h10] at hL
      exact hL

/-- Witness for C6: a dropped byte at cursor 10, and 11 concrete
non-marker bytes ending with cursor 10 and an intact buffer. -/
theorem c6_passive_overflow_witness :
    read_message ⟨List.replicate 10 0, 10⟩ (.ok 5) =
        (⟨List.replicate 10 0, 10⟩, .error .MessageNotComplete) ∧
      (feedBytes initState (List.replicate 11 7)).rx_counter = 10 ∧
        (feedBytes initState (List.replicate 11 7)).rx_message.length = 10 :=
  ⟨c6_passive_overflow.1 ⟨List.replicate 10 0, 10⟩ 5 (by decide) (by decide) (by decide),
    c6_passive_overflow.2 (List.replicate 11 7) (by decide) (by decide)⟩

/-- Claim C10: the driver starts with cursor 0 and a 10-byte buffer, and
`read_message` preserves `rx_counter ≤ 10` and the buffer length for every
transport outcome, so every buffer write happens at an index below 10. -/
theorem c10_counter_invariant :
    initState.rx_counter = 0 ∧ initState.rx_message.length = 10 ∧
    (∀ (s : RxState) (r : ReadOutcome),
      s.rx_counter ≤ 10 → s.rx_message.length = 10 →
      (read_message s r).1.rx_counter ≤ 10 ∧
        (read_message s r).1.rx_message.length = 10 ∧
        (read_message s r).1.rx_counter ≤ (read_message s r).1.rx_message.length) := by
  refine ⟨rfl, rfl, ?_⟩
  intro s r hs hl
  cases r with
  | err =>
      rw [read_message_err]
      exact ⟨hs, hl, by show s.rx_counter ≤ s.rx_message.length; omega⟩
  | ok b =>
      by_cases h1 : b = 126
      · subst h1
        rw [read_message_start]
        exact ⟨by decide, by decide, by decide⟩
      · by_cases h2 : b = 239
        · subst h2
          rw [read_message_end]
          by_cases h3 : s.rx_counter < 10
          · rw [if_pos h3]
            refine ⟨?_, ?_, ?_⟩
            · show s.rx_counter + 1 ≤ 10; omega
            · show (s.rx_message.set s.rx_counter 239).length = 10; simp [hl]
            · show s.rx_counter + 1 ≤ (s.rx_message.set s.rx_counter 239).length
              simp [hl]; omega
          · rw [if_neg h3]
            exact ⟨hs, hl, by show s.rx_counter ≤ s.rx_message.length; omega⟩
        · rw [read_message_nonmarker s b h1 h2]
          by_cases h3 : s.rx_counter < 10
          · rw [if_pos h3]
            refine ⟨?_, ?_, ?_⟩
            · show s.rx_counter + 1 ≤ 10; omega
            · show (s.rx_message.set s.rx_counter b).length = 10; simp [hl]
            · show s.rx_counter + 1 ≤ (s.rx_message.set s.rx_counter b).length
              simp [hl]; omega
          · rw [if_neg h3]
            exact ⟨hs, hl, by show s.rx_counter ≤ s.rx_message.length; omega⟩

/-- Witness for C10 at a mid-accumulation state and an ordinary byte. -/
theorem c10_counter_invariant_witness :
    (read_message ⟨List.replicate 10 0, 5⟩ (.ok 3)).1.rx_counter ≤ 10 ∧
      (read_message ⟨List.replicate 10 0, 5⟩ (.ok 3)).1.rx_message.length = 10 ∧
      (read_message ⟨List.replicate 10 0, 5⟩ (.ok 3)).1.rx_counter ≤
        (read_message ⟨List.replicate 10 0, 5⟩ (.ok 3)).1.rx_message.length :=
  c10_counter_invariant.2.2 ⟨List.replicate 10 0, 5⟩ (.ok 3) (by decide) (by decide)


/-- Claim C4: the public wrappers saturate their parameters before
encoding: `set_volume` stores `min v 30` in the volume byte, `play_mp3`
stores `min t 9999` big-endian in the parameter bytes, and
`play_folder_track` stores `min f 99` in the folder byte (the track byte
passes through). The concrete instances of the claim follow at
`v = 255`, `t = 65535`, `f = 200`. -/
theorem c4_wrapper_clamping :
    (∀ v : Nat, (msgOfCommand (set_volume_cmd v)).getD 6 0 = Nat.min v 30 ∧
      (msgOfCommand (set_volume_cmd v)).getD 5 0 = 0) ∧
    (∀ t : Nat, (msgOfCommand (play_mp3_cmd t)).getD 5 0 = Nat.min t 9999 / 256 ∧
      (msgOfCommand (play_mp3_cmd t)).getD 6 0 = Nat.min t 9999 % 256) ∧
    (∀ f tr : Nat, (msgOfCommand (play_folder_track_cmd f tr)).getD 5 0 = Nat.min f 99 ∧
      (msgOfCommand (play_folder_track_cmd f tr)).getD 6 0 = tr) ∧
    (msgOfCommand (set_volume_cmd 255)).getD 6 0 = 30 ∧
    (msgOfCommand (set_volume_cmd 0)).getD 6 0 = 0 ∧
    (msgOfCommand (play_mp3_cmd 65535)).getD 5 0 = 0x27 ∧
    (msgOfCommand (play_mp3_cmd 65535)).getD 6 0 = 0x0F ∧
    (msgOfCommand (play_folder_track_cmd 200 5)).getD 5 0 = 99 := by
  refine ⟨fun v => ⟨?_, rfl⟩, fun t => ⟨?_, ?_⟩, fun f tr => ⟨?_, rfl⟩,
    by decide, by decide, by decide, by decide, by decide⟩
  · show Nat.min (Nat.max v 0) 30 = Nat.min v 30
    simp only [Nat.min_def, Nat.max_def]
    split_ifs <;> omega
  · show ((t.min 9999).max 0) / 256 % 256 = Nat.min t 9999 / 256
    simp only [Nat.min_def, Nat.max_def]
    split_ifs <;> omega
  · show ((t.min 9999).max 0) % 256 = Nat.min t 9999 % 256
    simp only [Nat.min_def, Nat.max_def]
    split_ifs <;> omega
  · show Nat.max (Nat.min f 99) 0 = Nat.min f 99
    simp only [Nat.min_def, Nat.max_def]
    split_ifs <;> omega

lemma send_message_nil (accepts : Nat → Bool) (i : Nat) :
    send_message accepts i [] = ([], .ok ()) := rfl

lemma send_message_cons (accepts : Nat → Bool) (i b : Nat) (rest : List Nat) :
    send_message accepts i (b :: rest) =
      if accepts i then
        (b :: (send_message accepts (i + 1) rest).1,
          (send_message accepts (i + 1) rest).2)
      else
        ([], .error .WriteError) := rfl

lemma send_message_all_ok (msg : List Nat) :
    ∀ (accepts : Nat → Bool) (i : Nat),
      (∀ j, j < msg.length → accepts (i + j) = true) →
      send_message accepts i msg = (msg, .ok ()) := by
  induction msg with
  | nil => intro accepts i _; rfl
  | cons b rest ih =>
      intro accepts i h
      have h0 : accepts i = true := by simpa using h 0 (by simp)
      have hrest : ∀ j, j < rest.length → accepts (i + 1 + j) = true := by
        intro j hj
        have := h (j + 1) (by simp; omega)
        rwa [show i + 1 + j = i + (j + 1) by omega]
      rw [send_message_cons, if_pos h0, ih accepts (i + 1) hrest]

lemma send_message_first_fail (msg : List Nat) :
    ∀ (accepts : Nat → Bool) (i k : Nat), k < msg.length →
      (∀ j, j < k → accepts (i + j) = true) → accepts (i + k) = false →
      send_message accepts i msg = (msg.take k, .error .WriteError) := by
  induction msg with
  | nil => intro accepts i k hk _ _; simp at hk
  | cons b rest ih =>
      intro accepts i k hk hpre hk0
      cases k with
      | zero =>
          have h0 : accepts i = false := by simpa using hk0
          rw [send_message_cons, if_neg (by simp [h0]), List.take_zero]
      | succ k =>
          have h0 : accepts i = true := by simpa using hpre 0 (by omega)
          have hpre' : ∀ j, j < k → accepts (i + 1 + j) = true := by
            intro j hj
            have := hpre (j + 1) (by omega)
            rwa [show i + 1 + j = i + (j + 1) by omega]
          have hk0' : accepts (i + 1 + k) = false := by
            rwa [show i + 1 + k = i + (k + 1) by omega]
          rw [send_message_cons, if_pos h0,
            ih accepts (i + 1) k (by simpa using hk) hpre' hk0']
          rfl

/-- Claim C7: `send_message` writes the frame bytes strictly in order;
if every write is accepted it writes exactly the whole message and
returns `Ok(())`, and if write `k` is the first the transport rejects, it
has written exactly the first `k` bytes (no retry, no later bytes) and
returns `WriteError`. -/
theorem c7_send_message_order_abort (accepts : Nat → Bool) (msg : List Nat) :
    ((∀ j, j < msg.length → accepts j = true) →
      send_message accepts 0 msg = (msg, .ok ())) ∧
    (∀ k, k < msg.length → (∀ j, j < k → accepts j = true) →
      accepts k = false →
      send_message accepts 0 msg = (msg.take k, .error .WriteError)) := by
  constructor
  · intro h
    exact send_message_all_ok msg accepts 0 (by simpa using h)
  · intro k hk hpre hk0
    exact send_message_first_fail msg accepts 0 k hk (by simpa using hpre)
      (by simpa using hk0)

/-- Witness for C7 on the `Stop` frame: a transport accepting every byte
takes all ten, one rejecting the sixth write stops after five bytes. -/
theorem c7_send_message_order_abort_witness :
    send_message (fun _ => true) 0 (msgOfCommand Command.Stop) =
        (msgOfCommand Command.Stop, .ok ()) ∧
      send_message (fun j => decide (j < 5)) 0 (msgOfCommand Command.Stop) =
        ((msgOfCommand Command.Stop).take 5, .error .WriteError) :=
  ⟨(c7_send_message_order_abort (fun _ => true) (msgOfCommand Command.Stop)).1
      (by decide),
    (c7_send_message_order_abort (fun j => decide (j < 5)) (msgOfCommand Command.Stop)).2
      5 (by decide) (by decide) (by decide)⟩

lemma tagOfId_commandId (c : Command) : tagOfId (commandId c) = ctorIdx c := by
  cases c <;> rfl

/-- Claim C8: the identifier table written at frame byte 3 is total over
the `Command` variants, matches the documented values, and is injective on
variants: two commands with the same identifier byte are built from the
same constructor. -/
theorem c8_identifier_table :
    commandId .Next = 0x01 ∧ commandId .Previous = 0x02 ∧
    (∀ t, commandId (.SpecifyTrack t) = 0x03) ∧
    commandId .IncreseVolume = 0x04 ∧ commandId .DecreseVolume = 0x05 ∧
    (∀ v, commandId (.SpecifyVolume v) = 0x06) ∧
    (∀ e, commandId (.SpecifyEqualizer e) = 0x07) ∧
    (∀ m, commandId (.SpecifyPlaybackMode m) = 0x08) ∧
    commandId .Standby = 0x0A ∧ commandId .NormalWorking = 0x0B ∧
    commandId .ResetModule = 0x0C ∧ commandId .Playback = 0x0D ∧
    commandId .Pause = 0x0E ∧
    (∀ f t, commandId (.SpecifyFolder f t) = 0x0F) ∧
    (∀ t, commandId (.SpecifyMp3Track t) = 0x12) ∧
    (∀ t, commandId (.SpecifyAdvertisement t) = 0x13) ∧
    commandId .StopAdvertisement = 0x15 ∧ commandId .Stop = 0x16 ∧
    (∀ c : Command, (msgOfCommand c).getD 3 0 = commandId c) ∧
    (∀ c c' : Command, commandId c = commandId c' → ctorIdx c = ctorIdx c') := by
  refine ⟨rfl, rfl, fun _ => rfl, rfl, rfl, fun _ => rfl, fun _ => rfl, fun _ => rfl,
    rfl, rfl, rfl, rfl, rfl, fun _ _ => rfl, fun _ => rfl, fun _ => rfl, rfl, rfl,
    fun c => rfl, fun c c' h => ?_⟩
  rw [← tagOfId_commandId, ← tagOfId_commandId, h]

/-- Witness for C8: two `SpecifyVolume` commands share the identifier and
indeed come from the same constructor. -/
theorem c8_identifier_table_witness :
    ctorIdx (.SpecifyVolume 3) = ctorIdx (.SpecifyVolume 7) :=
  c8_identifier_table.2.2.2.2.2.2.2.2.2.2.2.2.2.2.2.2.2.2.2
    (.SpecifyVolume 3) (.SpecifyVolume 7) rfl

/-- Claim C9: converting a `Querry` succeeds exactly for `Volume`, whose
frame carries identifier byte `0x01` and a correct checksum; every other
variant is rejected (the source's `unimplemented!()` panic, modelled as
`none`) instead of producing a malformed frame. -/
theorem c9_querry_support :
    (∀ q : Querry, q ≠ .Volume → msgOfQuerry q = none) ∧
    msgOfQuerry .Volume = some [0x7E, 0xFF, 0x06, 0x01, 0x00, 0x00, 0x00, 0xFE, 0xFA, 0xEF] ∧
    (0xFE : Nat) * 256 + 0xFA = (65536 - (0xFF + 0x06 + 0x01) % 65536) % 65536 := by
  refine ⟨fun q hq => ?_, by decide, by decide⟩
  cases q <;> first | rfl | exact absurd rfl hq

/-- Witness for C9 at `Querry::Status`. -/
theorem c9_querry_support_witness : msgOfQuerry .Status = none :=
  c9_querry_support.1 .Status (by decide)

end DFPlayer
